import Mathlib

/-!
Verification of the blood-pressure logger (`src/app.py`).

The data model and operations are shallowly embedded: a pandas row becomes
the structure `Row`, a DataFrame becomes a `Frame` (column names plus rows),
the two persistence backends (local CSV file, Google Sheets worksheet)
become `Option Frame` fields of a state `St`, and the runtime conditions the
code branches on (gspread importable, credentials configured, remote calls
failing) become the booleans of `Env`.  Machine arithmetic is exact here:
systolic/diastolic are Python ints (embedded as `Int`) and the mean arterial
pressure is computed with rational arithmetic; `round(x, 1)` is embedded as
`round1`.
-/

namespace BP

/-- One reading of the table: the eight fields of a persisted row, in the
canonical column order of `app.py`. -/
structure Row where
  timestamp : Int
  systolic : Int
  diastolic : Int
  pulse : Option Int
  notes : String
  category : String
  map : ℚ
  pulse_pressure : Int
deriving DecidableEq

/-- `categorize_bp` from `src/app.py` lines 73-82: first matching rule wins. -/
def categorize_bp (sys dia : Int) : String :=
  if sys < 120 ∧ dia < 80 then "Normal"
  else if 120 ≤ sys ∧ sys < 130 ∧ dia < 80 then "Elevated"
  else if (130 ≤ sys ∧ sys < 140) ∨ (80 ≤ dia ∧ dia < 90) then "Hypertension Stage 1"
  else if 140 ≤ sys ∨ 90 ≤ dia then "Hypertension Stage 2"
  else "Uncategorized"

/-- Python `round(x, 1)`: round to one decimal place.  Ties never occur on the
values this program feeds in (see the `C10` theorem), so nearest-integer
rounding (`round`) agrees with Python's round-half-to-even there. -/
def round1 (x : ℚ) : ℚ := (round (10 * x) : ℚ) / 10

/-- The enriched row built by `add_entry` (`src/app.py` lines 165-177):
category, pulse pressure and mean arterial pressure are derived from the
raw inputs. -/
def mkRow (sys dia : Int) (pulse : Option Int) (notes : String) (ts : Int) : Row :=
  { timestamp := ts
    systolic := sys
    diastolic := dia
    pulse := pulse
    notes := notes
    category := categorize_bp sys dia
    map := round1 ((dia : ℚ) + ((sys - dia : Int) : ℚ) / 3)
    pulse_pressure := sys - dia }

/-- The sort key of `sort_values("timestamp")`: ascending order of timestamps. -/
def byTs (a b : Row) : Prop := a.timestamp ≤ b.timestamp

instance : DecidableRel byTs := fun a b => inferInstanceAs (Decidable (a.timestamp ≤ b.timestamp))

instance : IsTotal Row byTs := ⟨fun a b => Int.le_total a.timestamp b.timestamp⟩

instance : IsTrans Row byTs := ⟨fun _ _ _ hab hbc => le_trans hab hbc⟩

/-- `add_entry` at the table level (`src/app.py` line 178): append the enriched
row to the loaded table, then sort the whole table ascending by timestamp. -/
def add_entry (df : List Row) (sys dia : Int) (pulse : Option Int) (notes : String)
    (ts : Int) : List Row :=
  List.insertionSort byTs (df ++ [mkRow sys dia pulse notes ts])

/-- pandas `drop_duplicates()`: drop rows that are exactly equal to an earlier
row, keeping the first occurrence. -/
def dropDup : List Row → List Row
  | [] => []
  | r :: rs => r :: dropDup (rs.filter (fun x => decide (x ≠ r)))
termination_by l => l.length
decreasing_by
  simp only [List.length_cons]
  exact Nat.lt_succ_of_le (List.length_filter_le _ _)

/-- The CSV import merge (`src/app.py` line 211): concatenate the existing and
incoming tables, drop exact-duplicate rows, sort ascending by timestamp. -/
def importMerge (existing incoming : List Row) : List Row :=
  List.insertionSort byTs (dropDup (existing ++ incoming))

/-- The canonical column order used throughout `app.py`: the header written on
worksheet creation (line 66), the schema of the empty table (lines 93, 108,
218) and the column order enforced before a remote write (line 125). -/
def canonicalCols : List String :=
  ["timestamp", "systolic", "diastolic", "pulse", "notes", "category", "map", "pulse_pressure"]

/-- A pandas DataFrame: its column names and its rows. -/
structure Frame where
  cols : List String
  rows : List Row
deriving DecidableEq

/-- The runtime conditions `app.py` branches on: whether the gspread import
succeeded, whether `gcp_service_account` is in `st.secrets`, and whether the
remote write / read call raises. -/
structure Env where
  gspread : Bool
  hasCreds : Bool
  remoteWriteFails : Bool
  remoteReadFails : Bool
deriving DecidableEq

/-- The persistent state: the local CSV file (`none` = file absent) and the
Google Sheets worksheet (`none` = worksheet absent, auto-created on access). -/
structure St where
  localFile : Option Frame
  remote : Option Frame
deriving DecidableEq

/-- `save_data_local` (line 96-97): `df.to_csv` overwrites the file with the
whole table. -/
def save_data_local (df : Frame) (st : St) : St := { st with localFile := some df }

/-- `load_data_local` (lines 85-94): read the CSV; a missing file yields an
empty table with the canonical schema.  Numeric coercion and the
drop-unparseable-timestamp step are identities on well-typed rows. -/
def load_data_local (st : St) : Frame :=
  match st.localFile with
  | none => ⟨canonicalCols, []⟩
  | some f => f

/-- `save_data_gsheets` (lines 119-137): reorder columns to the canonical
order, clear the worksheet and rewrite it; any raised exception is returned
as an error string. -/
def save_data_gsheets (df : Frame) (env : Env) (st : St) : Option String × St :=
  if env.remoteWriteFails then (some "Write to Google Sheets failed", st)
  else (none, { st with remote := some ⟨canonicalCols, df.rows⟩ })

/-- `load_data_gsheets` (lines 99-117): read the worksheet (auto-created empty
with a header row if absent); an empty read yields the canonical schema; a
raised exception is returned as an error. -/
def load_data_gsheets (env : Env) (st : St) : Option Frame :=
  if env.remoteReadFails then none
  else
    match st.remote with
    | none => some ⟨canonicalCols, []⟩
    | some f => if f.rows = [] then some ⟨canonicalCols, []⟩ else some f

/-- `save_data` (lines 150-161): try Google Sheets when requested and
configured; on a remote write error fall back to the local CSV; report the
backend actually used. -/
def save_data (df : Frame) (target : String) (env : Env) (st : St) : String × St :=
  if target = "gsheets" ∧ env.gspread ∧ env.hasCreds then
    match save_data_gsheets df env st with
    | (some _, st') => ("local", save_data_local df st')
    | (none, st') => ("gsheets", st')
  else ("local", save_data_local df st)

/-- `load_data` (lines 139-148): prefer Google Sheets when configured, falling
back to the local CSV on a remote read error. -/
def load_data (env : Env) (st : St) : Frame × String :=
  if env.gspread ∧ env.hasCreds then
    match load_data_gsheets env st with
    | none => (load_data_local st, "local")
    | some f => (f, "gsheets")
  else (load_data_local st, "local")

/-- `io_mode` (line 191): the preferred backend, decided from configuration. -/
def io_mode (env : Env) : String :=
  if env.gspread ∧ env.hasCreds then "gsheets" else "local"

/-- The Clear-ALL button handler (lines 217-220): persist a table with zero
rows and the full canonical schema. -/
def clear_all (env : Env) (st : St) : String × St :=
  save_data ⟨canonicalCols, []⟩ (io_mode env) env st

/-- Read back from a named backend: the read that follows a save reporting
that backend. -/
def readBackend (backend : String) (env : Env) (st : St) : Option Frame :=
  if backend = "gsheets" then load_data_gsheets env st else some (load_data_local st)

/-- Spec-side definition (§4.1): `meanArterialPressure(diastolic, pulsePressure)
= round(diastolic + pulsePressure/3, 1)`. -/
def specMeanArterialPressure (dia pp : Int) : ℚ := round1 ((dia : ℚ) + (pp : ℚ) / 3)

/-- The exact rational value the map computation rounds:
`diastolic + (systolic - diastolic)/3`. -/
def mapExact (sys dia : Int) : ℚ := (dia : ℚ) + ((sys - dia : Int) : ℚ) / 3

/-- Round-half-to-even to the nearest integer (Python's tie behavior for
`round`); off ties it is plain nearest-integer rounding. -/
def roundHalfEven (x : ℚ) : ℤ :=
  if Int.fract x = 1 / 2 then (if Even ⌊x⌋ then ⌊x⌋ else ⌊x⌋ + 1) else round x

lemma dropDup_nil : dropDup [] = [] := by
  rw [dropDup]

lemma dropDup_cons (r : Row) (rs : List Row) :
    dropDup (r :: rs) = r :: dropDup (rs.filter (fun x => decide (x ≠ r))) := by
  rw [dropDup]

lemma mem_dropDup (a : Row) : ∀ l : List Row, a ∈ dropDup l ↔ a ∈ l := by
  intro l
  induction l using dropDup.induct with
  | case1 => simp [dropDup_nil]
  | case2 r rs ih =>
    rw [dropDup_cons]
    by_cases ha : a = r
    · simp [ha]
    · simp only [List.mem_cons, ha, false_or, ih, List.mem_filter, decide_eq_true_eq]
      constructor
      · exact fun h => h.1
      · exact fun h => ⟨h, ha⟩

lemma filter_ne_of_not_mem {r : Row} {l : List Row} (h : r ∉ l) :
    l.filter (fun x => decide (x ≠ r)) = l := by
  apply List.filter_eq_self.2
  intro x hx
  simp only [decide_eq_true_eq]
  exact fun hxr => h (hxr ▸ hx)

lemma dropDup_append_self : ∀ l : List Row, l.Nodup → dropDup (l ++ l) = l := by
  intro l
  induction l with
  | nil => simpa using dropDup_nil
  | cons r rs ih =>
    intro hnd
    have hr : r ∉ rs := (List.nodup_cons.1 hnd).1
    have hrs : rs.Nodup := (List.nodup_cons.1 hnd).2
    have hfilter : (rs ++ r :: rs).filter (fun x => decide (x ≠ r)) = rs ++ rs := by
      rw [List.filter_append, filter_ne_of_not_mem hr]
      simp only [List.filter_cons, decide_eq_true_eq, ne_eq, not_true_eq_false,
        if_false, filter_ne_of_not_mem hr]
    calc dropDup (r :: rs ++ (r :: rs))
        = r :: dropDup ((rs ++ r :: rs).filter (fun x => decide (x ≠ r))) := by
          rw [List.cons_append, dropDup_cons]
      _ = r :: dropDup (rs ++ rs) := by rw [hfilter]
      _ = r :: rs := by rw [ih hrs]

/-- C1 counterexample: the claim says `categorize_bp 115 95 = "Uncategorized"`
(rules 1-4 all failing), but rule 4 matches on `dia = 95 ≥ 90`, so the code
returns `"Hypertension Stage 2"`. -/
theorem C1_counterexample :
    categorize_bp 115 95 = "Hypertension Stage 2" ∧ categorize_bp 115 95 ≠ "Uncategorized" := by
  decide

/-- C1 (amended): the `Uncategorized` branch of `categorize_bp` is unreachable:
no input makes rules 1 through 4 all fail, since any input escaping rules 1-3
has `sys ≥ 140` or `dia ≥ 90` or `dia < 80` with `sys ≥ 130`, all caught by
rule 3 or 4.  In particular (115, 95) is caught by rule 4 on the diastolic. -/
theorem C1_uncategorized_unreachable (sys dia : Int) :
    categorize_bp sys dia ≠ "Uncategorized" := by
  unfold categorize_bp
  split_ifs with h1 h2 h3 h4
  · decide
  · decide
  · decide
  · decide
  · exfalso
    omega

theorem C1_uncategorized_unreachable_witness :
    categorize_bp 115 95 ≠ "Uncategorized" :=
  C1_uncategorized_unreachable 115 95

/-- C2: `categorize_bp` satisfies every boundary case of the spec's table. -/
theorem C2_boundary_cases :
    categorize_bp 119 79 = "Normal" ∧
    categorize_bp 120 79 = "Elevated" ∧
    categorize_bp 129 79 = "Elevated" ∧
    categorize_bp 130 79 = "Hypertension Stage 1" ∧
    categorize_bp 139 89 = "Hypertension Stage 1" ∧
    categorize_bp 140 70 = "Hypertension Stage 2" ∧
    categorize_bp 110 90 = "Hypertension Stage 2" := by
  decide

/-- C3: for every pair of integer systolic and diastolic values, the row
`add_entry` builds and appends stores `pulse_pressure = systolic - diastolic`
exactly (an `Int` subtraction: negative differences are stored as such, with
no clamping), and that row is present in the returned table. -/
theorem C3_pulse_pressure (df : List Row) (sys dia : Int) (pulse : Option Int)
    (notes : String) (ts : Int) :
    (mkRow sys dia pulse notes ts).pulse_pressure = sys - dia ∧
    mkRow sys dia pulse notes ts ∈ add_entry df sys dia pulse notes ts := by
  refine ⟨rfl, ?_⟩
  simp [add_entry, List.mem_insertionSort]

/-- C4: for every reading, the `map` value stored by `add_entry` equals
`diastolic + pulse_pressure/3` rounded to one decimal place, where
`pulse_pressure` is the value stored in the same row. -/
theorem C4_mean_arterial_pressure (sys dia : Int) (pulse : Option Int)
    (notes : String) (ts : Int) :
    (mkRow sys dia pulse notes ts).map
      = specMeanArterialPressure dia (mkRow sys dia pulse notes ts).pulse_pressure := by
  rfl

/-- C5: the import merge is idempotent: merging a table with itself yields the
table back, provided it is already sorted ascending by timestamp and free of
exact-duplicate rows. -/
theorem C5_importMerge_idempotent (t : List Row)
    (hs : List.Sorted byTs t) (hnd : t.Nodup) :
    importMerge t t = t := by
  unfold importMerge
  rw [dropDup_append_self t hnd, hs.insertionSort_eq]

theorem C5_importMerge_idempotent_witness :
    List.Sorted byTs
        [({ timestamp := 1, systolic := 120, diastolic := 75, pulse := some 70, notes := "",
            category := "Elevated", map := 90, pulse_pressure := 45 } : Row),
          { timestamp := 2, systolic := 115, diastolic := 70, pulse := none, notes := "walk",
            category := "Normal", map := 85, pulse_pressure := 45 }] ∧
      List.Nodup
        [({ timestamp := 1, systolic := 120, diastolic := 75, pulse := some 70, notes := "",
            category := "Elevated", map := 90, pulse_pressure := 45 } : Row),
          { timestamp := 2, systolic := 115, diastolic := 70, pulse := none, notes := "walk",
            category := "Normal", map := 85, pulse_pressure := 45 }] ∧
      importMerge
          [({ timestamp := 1, systolic := 120, diastolic := 75, pulse := some 70, notes := "",
              category := "Elevated", map := 90, pulse_pressure := 45 } : Row),
            { timestamp := 2, systolic := 115, diastolic := 70, pulse := none, notes := "walk",
              category := "Normal", map := 85, pulse_pressure := 45 }]
          [({ timestamp := 1, systolic := 120, diastolic := 75, pulse := some 70, notes := "",
              category := "Elevated", map := 90, pulse_pressure := 45 } : Row),
            { timestamp := 2, systolic := 115, diastolic := 70, pulse := none, notes := "walk",
              category := "Normal", map := 85, pulse_pressure := 45 }]
        = [({ timestamp := 1, systolic := 120, diastolic := 75, pulse := some 70, notes := "",
              category := "Elevated", map := 90, pulse_pressure := 45 } : Row),
            { timestamp := 2, systolic := 115, diastolic := 70, pulse := none, notes := "walk",
              category := "Normal", map := 85, pulse_pressure := 45 }] :=
  ⟨by decide, by decide, C5_importMerge_idempotent _ (by decide) (by decide)⟩

/-- C6: the merge drops only exact duplicates: any two rows of the
concatenated input that share a timestamp but differ in some field both
survive the merge (in fact every input row survives, duplicates aside). -/
theorem C6_merge_keeps_distinct_rows (e i : List Row) (r1 r2 : Row)
    (hts : r1.timestamp = r2.timestamp) (hne : r1 ≠ r2)
    (h1 : r1 ∈ e ++ i) (h2 : r2 ∈ e ++ i) :
    r1 ∈ importMerge e i ∧ r2 ∈ importMerge e i := by
  unfold importMerge
  constructor <;> rw [List.mem_insertionSort, mem_dropDup] <;> assumption

theorem C6_merge_keeps_distinct_rows_witness :
    ({ timestamp := 5, systolic := 118, diastolic := 70, pulse := none, notes := "",
       category := "Normal", map := 86, pulse_pressure := 48 } : Row)
        ∈ importMerge
          [{ timestamp := 5, systolic := 118, diastolic := 70, pulse := none, notes := "",
             category := "Normal", map := 86, pulse_pressure := 48 }]
          [{ timestamp := 5, systolic := 142, diastolic := 70, pulse := none, notes := "",
             category := "Hypertension Stage 2", map := 94, pulse_pressure := 72 }] ∧
      ({ timestamp := 5, systolic := 142, diastolic := 70, pulse := none, notes := "",
         category := "Hypertension Stage 2", map := 94, pulse_pressure := 72 } : Row)
        ∈ importMerge
          [{ timestamp := 5, systolic := 118, diastolic := 70, pulse := none, notes := "",
             category := "Normal", map := 86, pulse_pressure := 48 }]
          [{ timestamp := 5, systolic := 142, diastolic := 70, pulse := none, notes := "",
             category := "Hypertension Stage 2", map := 94, pulse_pressure := 72 }] :=
  C6_merge_keeps_distinct_rows _ _ _ _ (by decide) (by decide) (by decide) (by decide)

/-- C8: `add_entry` returns a permutation of the prior table with the one
enriched row appended (so no existing row is modified or dropped), the result
is sorted ascending by timestamp, and the appended row's derived fields are
computed from the inputs. -/
theorem C8_add_entry_appends_and_sorts (df : List Row) (sys dia : Int)
    (pulse : Option Int) (notes : String) (ts : Int) :
    List.Perm (add_entry df sys dia pulse notes ts) (df ++ [mkRow sys dia pulse notes ts]) ∧
    List.Sorted byTs (add_entry df sys dia pulse notes ts) ∧
    (mkRow sys dia pulse notes ts).category = categorize_bp sys dia ∧
    (mkRow sys dia pulse notes ts).map = specMeanArterialPressure dia (sys - dia) ∧
    (mkRow sys dia pulse notes ts).pulse_pressure = sys - dia := by
  unfold add_entry
  exact ⟨List.perm_insertionSort byTs _, List.sorted_insertionSort byTs _, rfl, rfl, rfl⟩

/-- C7: after the Clear-ALL handler runs, reading back from the backend it
reports (remote reads succeeding) yields a table with zero rows and exactly
the eight canonical columns, in order. -/
theorem C7_clear_all_empty_schema (env : Env) (st : St)
    (h : env.remoteReadFails = false) :
    readBackend (clear_all env st).1 env (clear_all env st).2
      = some ⟨canonicalCols, []⟩ := by
  rcases env with ⟨g, c, wf, rf⟩
  simp only [] at h
  subst h
  cases g <;> cases c <;> cases wf <;>
    simp [clear_all, io_mode, save_data, save_data_gsheets, save_data_local,
      readBackend, load_data_gsheets, load_data_local]

theorem C7_clear_all_empty_schema_witness :
    (Env.mk false false false false).remoteReadFails = false ∧
      readBackend (clear_all (Env.mk false false false false) (St.mk none none)).1
          (Env.mk false false false false)
          (clear_all (Env.mk false false false false) (St.mk none none)).2
        = some ⟨canonicalCols, []⟩ :=
  ⟨rfl, C7_clear_all_empty_schema (Env.mk false false false false) (St.mk none none) rfl⟩

/-- C9: with Google Sheets configured and preferred, a failed remote write
makes `save_data` write the table to the local backend and report `"local"`
(the failure is downgraded, never fatal: `save_data` still returns), while a
successful remote write reports `"gsheets"`. -/
theorem C9_save_data_fallback (df : Frame) (env : Env) (st : St)
    (hg : env.gspread = true) (hc : env.hasCreds = true) :
    (env.remoteWriteFails = true →
      (save_data df "gsheets" env st).1 = "local" ∧
      ((save_data df "gsheets" env st).2).localFile = some df) ∧
    (env.remoteWriteFails = false →
      (save_data df "gsheets" env st).1 = "gsheets") := by
  rcases env with ⟨g, c, wf, rf⟩
  simp only [] at hg hc
  subst hg
  subst hc
  cases wf <;> simp [save_data, save_data_gsheets, save_data_local]

theorem C9_save_data_fallback_witness :
    (Env.mk true true true false).gspread = true ∧
      (Env.mk true true true false).hasCreds = true ∧
      (Env.mk true true true false).remoteWriteFails = true ∧
      (save_data ⟨canonicalCols, []⟩ "gsheets" (Env.mk true true true false)
          (St.mk none none)).1 = "local" ∧
      ((save_data ⟨canonicalCols, []⟩ "gsheets" (Env.mk true true true false)
          (St.mk none none)).2).localFile = some ⟨canonicalCols, []⟩ :=
  ⟨rfl, rfl, rfl,
    ((C9_save_data_fallback ⟨canonicalCols, []⟩ (Env.mk true true true false)
        (St.mk none none) rfl rfl).1 rfl).1,
    ((C9_save_data_fallback ⟨canonicalCols, []⟩ (Env.mk true true true false)
        (St.mk none none) rfl rfl).1 rfl).2⟩

lemma fract_mapExact (sys dia : Int) :
    Int.fract (10 * mapExact sys dia) = ((10 * (sys - dia)) % 3 : ℤ) / 3 := by
  have key : (10 : ℚ) * mapExact sys dia
      = ((10 * dia : ℤ) : ℚ) + ((10 * (sys - dia) : ℤ) : ℚ) / 3 := by
    unfold mapExact
    push_cast
    ring
  rw [key, Int.fract_int_add]
  have hsplit : ((10 * (sys - dia) : ℤ) : ℚ) / 3
      = ((10 * (sys - dia) / 3 : ℤ) : ℚ) + ((10 * (sys - dia) % 3 : ℤ) : ℚ) / 3 := by
    have hdm : (3 : ℤ) * (10 * (sys - dia) / 3) + 10 * (sys - dia) % 3 = 10 * (sys - dia) :=
      Int.ediv_add_emod _ 3
    have : ((10 * (sys - dia) : ℤ) : ℚ)
        = 3 * ((10 * (sys - dia) / 3 : ℤ) : ℚ) + ((10 * (sys - dia) % 3 : ℤ) : ℚ) := by
      exact_mod_cast hdm.symm
    rw [this]
    ring
  rw [hsplit, Int.fract_int_add]
  apply Int.fract_eq_self.2
  have h0 : (0 : ℤ) ≤ 10 * (sys - dia) % 3 := Int.emod_nonneg _ (by norm_num)
  have h3 : 10 * (sys - dia) % 3 < 3 := Int.emod_lt_of_pos _ (by norm_num)
  constructor
  · exact div_nonneg (by exact_mod_cast h0) (by norm_num)
  · have : ((10 * (sys - dia) % 3 : ℤ) : ℚ) < 3 := by exact_mod_cast h3
    linarith

/-- C10: the exact rational `diastolic + (systolic - diastolic)/3` is never an
exact midpoint between two consecutive multiples of 0.1: ten times it has
fractional part 0, 1/3 or 2/3, never 1/2, so the `.x5` tie case is unreachable
from integer inputs and round-half-to-even (Python) agrees with nearest-integer
rounding (`round`, as used by `round1`) on these values. -/
theorem C10_no_rounding_ties (sys dia : Int) :
    (Int.fract (10 * mapExact sys dia) = 0 ∨
      Int.fract (10 * mapExact sys dia) = 1 / 3 ∨
      Int.fract (10 * mapExact sys dia) = 2 / 3) ∧
    (∀ k : ℤ, 10 * mapExact sys dia ≠ (k : ℚ) + 1 / 2) ∧
    roundHalfEven (10 * mapExact sys dia) = round (10 * mapExact sys dia) := by
  have hfr := fract_mapExact sys dia
  have hcases : 10 * (sys - dia) % 3 = 0 ∨ 10 * (sys - dia) % 3 = 1 ∨
      10 * (sys - dia) % 3 = 2 := by omega
  have hne : Int.fract (10 * mapExact sys dia) ≠ 1 / 2 := by
    rw [hfr]
    rcases hcases with h | h | h <;> rw [h] <;> norm_num
  refine ⟨?_, ?_, ?_⟩
  · rw [hfr]
    rcases hcases with h | h | h <;> rw [h]
    · left
      norm_num
    · right
      left
      norm_num
    · right
      right
      norm_num
  · intro k hk
    apply hne
    rw [hk, Int.fract_int_add]
    exact Int.fract_eq_self.2 ⟨by norm_num, by norm_num⟩
  · unfold roundHalfEven
    rw [if_neg hne]

theorem C10_no_rounding_ties_witness :
    roundHalfEven (10 * mapExact 121 80) = round (10 * mapExact 121 80) :=
  (C10_no_rounding_ties 121 80).2.2

end BP
